import Mathlib

/-!
Verification development for the People-vs-Animal battle simulator
(FighterAI, AnimalAI, BattleSimulator).

Modelling conventions:
* JavaScript numbers are modelled by exact rationals.  Transcendental
  library primitives (Math.sqrt, Math.sin, Math.cos, Math.atan2, Math.PI)
  have no rational closed form, so they are passed around as an explicit
  record of rational-valued functions (a FloatOps value); float rounding
  is not modelled.
* A JavaScript division whose denominator is 0 produces NaN or +-Infinity
  (a non-finite number); such divisions are modelled by Option, where
  none marks the non-finite outcome.
* A thrown JavaScript exception is modelled by Except.error carrying the
  error message.
* Mesh / material / DOM updates are presentation only and are omitted.
-/

namespace MVA

/-- Discrete unit state tags used by fighters and attack targets. -/
inductive FState where
  | idle
  | moving
  | attacking
  | fleeing
  | dead
deriving DecidableEq, Repr

/-- 3-component vector, mirroring THREE.Vector3 with rational coordinates. -/
structure Vec3 where
  x : ℚ
  y : ℚ
  z : ℚ
deriving DecidableEq, Repr

instance : Add Vec3 where
  add a b := ⟨a.x + b.x, a.y + b.y, a.z + b.z⟩

instance : Sub Vec3 where
  sub a b := ⟨a.x - b.x, a.y - b.y, a.z - b.z⟩

instance : SMul ℚ Vec3 where
  smul c v := ⟨c * v.x, c * v.y, c * v.z⟩

/-- Zero vector, as produced by new THREE.Vector3(). -/
def Vec3.zero : Vec3 := ⟨0, 0, 0⟩

/-- Dot product of two vectors. -/
def Vec3.dot (a b : Vec3) : ℚ := a.x * b.x + a.y * b.y + a.z * b.z

/-- Squared length, as computed by THREE.Vector3.lengthSq. -/
def Vec3.normSq (v : Vec3) : ℚ := v.x * v.x + v.y * v.y + v.z * v.z

/-- Rational-valued stand-ins for the float math primitives the code uses
(Math.sqrt, Math.cos, Math.sin, Math.atan2, Math.PI).  Theorems either hold
for every choice of these functions or carry explicit hypotheses about the
values actually consumed. -/
structure FloatOps where
  sqrt : ℚ → ℚ
  cos : ℚ → ℚ
  sin : ℚ → ℚ
  atan2 : ℚ → ℚ → ℚ
  pi : ℚ

/-- Vector length: Math.sqrt of the squared length (THREE.Vector3.length). -/
def vlen (ops : FloatOps) (v : Vec3) : ℚ := ops.sqrt v.normSq

/-- THREE.Vector3.normalize: divideScalar(length or 1); a zero length
falls back to divisor 1, so the zero vector stays zero. -/
def jsNormalize (ops : FloatOps) (v : Vec3) : Vec3 :=
  let len := vlen ops v
  (1 / (if len = 0 then 1 else len)) • v

/-- THREE.Vector3.applyAxisAngle with axis (0,1,0) and angle theta:
rotation about the y axis. -/
def rotY (ops : FloatOps) (theta : ℚ) (v : Vec3) : Vec3 :=
  ⟨v.x * ops.cos theta + v.z * ops.sin theta,
   v.y,
   -(v.x * ops.sin theta) + v.z * ops.cos theta⟩

/-- Truncation toward zero, as used by the JavaScript % operator. -/
def jsTrunc (q : ℚ) : ℤ := if 0 ≤ q then ⌊q⌋ else ⌈q⌉

/-- JavaScript remainder a % b (sign of the dividend, truncated division).
The b = 0 case (NaN in JavaScript) never occurs at the call sites modelled
here, where b is a nonzero constant. -/
def jsFmod (a b : ℚ) : ℚ := a - b * (jsTrunc (a / b) : ℚ)

/-- JavaScript division a / b modelled partially: a zero denominator
yields NaN (for a = 0) or +-Infinity (otherwise), collapsed to none. -/
def jsDivQ (a b : ℚ) : Option ℚ := if b = 0 then none else some (a / b)

/-- An attack target as seen by AnimalAI.performAttack: only health and
the state tag are read or written.  The commander object has no state
field at creation (JavaScript undefined), hence Option FState with none
for undefined. -/
structure Target where
  health : ℚ
  state : Option FState
deriving DecidableEq, Repr

/-- The animal record created by AnimalAI.createAnimal (fields consumed by
the embedded functions; mesh and type-dependent colour are presentation). -/
structure AnimalS where
  position : Vec3
  velocity : Vec3
  rotation : ℚ
  health : ℚ
  maxHealth : ℚ
  attackPower : ℚ
  attackRange : ℚ
  moveSpeed : ℚ
  chargeSpeed : ℚ
  lastAttackTime : ℚ
  attackCooldown : ℚ
  recentDamage : ℚ
  isEnraged : Bool
deriving DecidableEq, Repr

/-- One damage application inside AnimalAI.performAttack, after the dead
check: subtract the damage, and on reaching 0 or below clamp health to 0
and transition to the terminal dead state. -/
def applyDamage (dmg : ℤ) (t : Target) : Target :=
  let h := t.health - (dmg : ℚ)
  if h ≤ 0 then { t with health := 0, state := some FState.dead }
  else { t with health := h }

/-- The target loop of AnimalAI.performAttack.  Dead targets are skipped
before the Math.random() draw, so the random stream index k advances only
on live targets.  damage = Math.floor(baseDamage * (0.8 + Math.random() * 0.4)). -/
def hitTargets (base : ℚ) (rng : ℕ → ℚ) : ℕ → List Target → List Target
  | _, [] => []
  | k, t :: ts =>
    if t.state = some FState.dead then t :: hitTargets base rng k ts
    else applyDamage ⌊base * (4/5 + rng k * (2/5))⌋ t :: hitTargets base rng (k + 1) ts

/-- AnimalAI.performAttack: reject (no-op, false) while the attacker's
cooldown has not elapsed; otherwise damage every live target, reset
lastAttackTime once for the whole call, and reassign attackCooldown from
the enrage flag (0.7 enraged, 1.0 otherwise). -/
def performAttack (a : AnimalS) (targets : List Target) (base time : ℚ)
    (rng : ℕ → ℚ) : Bool × AnimalS × List Target :=
  if time - a.lastAttackTime < a.attackCooldown then (false, a, targets)
  else
    (true,
     { a with lastAttackTime := time,
              attackCooldown := if a.isEnraged then 7/10 else 1 },
     hitTargets base rng 0 targets)

/-- AnimalAI.updateRageState: decay recentDamage, then on crossing the
enrage threshold (10% of maxHealth) apply the one-time multipliers
x1.3 attackPower and x1.2 moveSpeed and chargeSpeed; on falling below half
the threshold while enraged, divide the same multipliers back out. -/
def updateRageState (a : AnimalS) (delta : ℚ) : AnimalS :=
  let rd := a.recentDamage * (1 - delta * (1/2))
  let thr := a.maxHealth * (1/10)
  if a.isEnraged = false ∧ rd > thr then
    { a with recentDamage := rd, isEnraged := true,
             attackPower := a.attackPower * (13/10),
             moveSpeed := a.moveSpeed * (6/5),
             chargeSpeed := a.chargeSpeed * (6/5) }
  else if a.isEnraged = true ∧ rd < thr * (1/2) then
    { a with recentDamage := rd, isEnraged := false,
             attackPower := a.attackPower / (13/10),
             moveSpeed := a.moveSpeed / (6/5),
             chargeSpeed := a.chargeSpeed / (6/5) }
  else { a with recentDamage := rd }

/-- A fighter as created by BattleSimulator.createFighter (game.js); the
roster index is passed explicitly where the code calls indexOf. -/
structure Fighter where
  position : Vec3
  velocity : Vec3
  forceAccumulator : Vec3
  rotation : ℚ
  health : ℚ
  maxHealth : ℚ
  state : FState
  attackPower : ℚ
  lastAttackTime : ℚ
  attackCooldown : ℚ
  commanderInfluence : Bool
  stunned : Bool
  stunTime : ℚ
deriving DecidableEq, Repr

/-- The commander as created by BattleSimulator.createCommander.  The
created object has no state property (JavaScript undefined), modelled as
none; AnimalAI.performAttack may later store a dead tag into it. -/
structure CommanderS where
  position : Vec3
  velocity : Vec3
  rotation : ℚ
  health : ℚ
  maxHealth : ℚ
  attackPower : ℚ
  lastAttackTime : ℚ
  attackCooldown : ℚ
  attackRange : ℚ
  state : Option FState
deriving DecidableEq, Repr

/-- The slice of BattleSimulator game state read and written by
commanderAttack. -/
structure BattleCore where
  time : ℚ
  animal : Option AnimalS
  commander : Option CommanderS
  commanderDamageDealt : ℚ
deriving DecidableEq, Repr

/-- BattleSimulator.commanderAttack (game.js): cooldown gate, range check,
then subtract attackPower from the animal's health (no clamp), record the
damage for achievements and for rage, and reset the commander's attack
timer. -/
def commanderAttack (ops : FloatOps) (g : BattleCore) : BattleCore :=
  match g.commander, g.animal with
  | some c, some a =>
    if g.time - c.lastAttackTime < c.attackCooldown then g
    else
      let distanceToAnimal := vlen ops (a.position - c.position)
      if distanceToAnimal ≤ c.attackRange then
        { g with
          animal := some { a with health := a.health - c.attackPower,
                                  recentDamage := a.recentDamage + c.attackPower },
          commander := some { c with lastAttackTime := g.time },
          commanderDamageDealt := g.commanderDamageDealt + c.attackPower }
      else g
  | _, _ => g

/-- The guard this.state.animal && this.state.animal.health <= 0 of
checkBattleEnd (a null animal is falsy). -/
def animalDefeated : Option AnimalS → Bool
  | some a => decide (a.health ≤ 0)
  | none => false

/-- The guard this.state.commander && this.state.commander.health <= 0 of
checkBattleEnd (a null commander is falsy). -/
def commanderDefeated : Option CommanderS → Bool
  | some c => decide (c.health ≤ 0)
  | none => false

/-- BattleSimulator.checkBattleEnd (game.js): some true means
endBattle(true) (player wins), some false means endBattle(false) (player
loses), none means the battle continues this tick. -/
def checkBattleEnd (fighters : List Fighter) (animal : Option AnimalS)
    (commander : Option CommanderS) : Option Bool :=
  if animalDefeated animal then some true
  else
    let allFightersDead := fighters.all fun f => f.state = FState.dead
    if (decide (fighters.length > 0) && allFightersDead) || commanderDefeated commander
    then some false
    else none

/-- Common signature of the four formation slot functions of FighterAI:
arguments are (index, totalFighters, center, direction); the result is
none when the slot position is NaN-contaminated (a division by zero in
the row or width math). -/
abbrev FormFn := FloatOps → ℚ → ℚ → Vec3 → Vec3 → Option Vec3

/-- FighterAI.circleFormation. -/
def circleFormation : FormFn := fun ops index total center _direction =>
  let radius := min (total * (1/2)) 15
  (jsDivQ index total).map fun q =>
    let angle := q * ops.pi * 2
    ⟨ops.sin angle * radius, 0, ops.cos angle * radius⟩ + center

/-- FighterAI.lineFormation.  The offset divides by totalFighters - 1 with
no guard, so a roster of exactly one fighter divides 0 by 0. -/
def lineFormation : FormFn := fun _ops index total center direction =>
  let perpendicular : Vec3 := ⟨-direction.z, 0, direction.x⟩
  let lineWidth := min (total * (6/5)) 30
  (jsDivQ index (total - 1)).map fun q =>
    let offsetFromCenter := (q - 1/2) * lineWidth
    center + offsetFromCenter • perpendicular

/-- FighterAI.arrowFormation: index 0 is the point of the arrow; the
remaining fighters are laid out in rows computed from ceil(sqrt(total)). -/
def arrowFormation : FormFn := fun ops index total center direction =>
  if index = 0 then some (center + (3 : ℚ) • direction)
  else
    let rowSize : ℚ := (⌈ops.sqrt total⌉ : ℤ)
    (jsDivQ index rowSize).bind fun rowQ =>
      let row : ℚ := (⌊rowQ⌋ : ℤ)
      let posInRow := jsFmod index rowSize
      let rowWidth := max 1 (rowSize - row) * 2
      let perpendicular : Vec3 := ⟨-direction.z, 0, direction.x⟩
      let totalInRow := min rowSize (total - row * rowSize)
      (jsDivQ posInRow (totalInRow - 1)).map fun q =>
        let offsetInRow := (q - 1/2) * rowWidth
        center + (-row * 2) • direction + offsetInRow • perpendicular

/-- FighterAI.scatterFormation: deterministic placement seeded by index. -/
def scatterFormation : FormFn := fun ops index total center _direction =>
  let seed := jsFmod (index * 13371) 17
  let radius := min (total * (7/10)) 20
  let angle := seed / 17 * ops.pi * 2
  let distance := jsFmod seed 7 / 7 * radius
  some (⟨ops.sin angle * distance, 0, ops.cos angle * distance⟩ + center)

/-- The formations table built in the FighterAI constructor. -/
def formationsMap : List (String × FormFn) :=
  [("circle", circleFormation), ("line", lineFormation),
   ("arrow", arrowFormation), ("scatter", scatterFormation)]

/-- The behavior weights object of FighterAI (attackTarget is mutated at
runtime by applyCommanderInfluence). -/
structure Weights where
  followCommander : ℚ
  maintainFormation : ℚ
  attackTarget : ℚ
  avoidDanger : ℚ
  fleeWhenInjured : ℚ
deriving DecidableEq, Repr

/-- Initial weights from the FighterAI constructor. -/
def initialWeights : Weights := ⟨1/2, 3/10, 4/5, 3/5, 7/10⟩

/-- The mutable FighterAI instance state. -/
structure FighterAIState where
  currentFormation : String
  formationCenter : Vec3
  formationDirection : Vec3
  weights : Weights
deriving DecidableEq, Repr

/-- Member names the formations object literal inherits from
Object.prototype.  Each of these is truthy under JavaScript member
access: all are functions except the accessor member at the end, which
yields Object.prototype itself (an object, hence truthy). -/
def objectProtoMembers : List String :=
  ["constructor", "hasOwnProperty", "isPrototypeOf", "propertyIsEnumerable",
   "toLocaleString", "toString", "valueOf", "__defineGetter__",
   "__defineSetter__", "__lookupGetter__", "__lookupSetter__", "__proto__"]

/-- Truthiness of the JavaScript member access this.formations[name]:
the access finds an own key of the object literal (the four formation
functions) or, failing that, a member inherited from Object.prototype;
both are truthy, every other name yields undefined (falsy). -/
def formationsTruthy (name : String) : Bool :=
  (formationsMap.lookup name).isSome || objectProtoMembers.contains name

/-- FighterAI.setFormation: truthiness test of
this.formations[formationName] (own keys plus the prototype chain); on
a truthy member store the name and return true, otherwise return false
and leave the current formation untouched. -/
def setFormation (st : FighterAIState) (formationName : String) :
    Bool × FighterAIState :=
  if formationsTruthy formationName then
    (true, { st with currentFormation := formationName })
  else (false, st)

/-- FighterAI.updateFormationCenter: recompute the formation frame from
the commander's position and rotation plus a fixed forward offset of 5. -/
def updateFormationCenter (ops : FloatOps) (st : FighterAIState)
    (commander : Option CommanderS) : FighterAIState :=
  match commander with
  | none => st
  | some c =>
    let dir := rotY ops c.rotation ⟨0, 0, -1⟩
    { st with formationDirection := dir,
              formationCenter := c.position + (5 : ℚ) • dir }

/-- FighterAI.getFormationPosition: dispatch on the current formation
name.  A stored name outside the four own keys (possible via
setFormation and the prototype chain) makes the source call an inherited
Object.prototype function whose result is not a Vector3, poisoning the
slot; that non-vector outcome falls under the none marker here. -/
def getFormationPosition (ops : FloatOps) (st : FighterAIState)
    (index total : ℚ) : Option Vec3 :=
  (formationsMap.lookup st.currentFormation).bind fun fn =>
    fn ops index total st.formationCenter st.formationDirection

/-- FighterAI.applyFormationForce: spring force toward the formation slot,
scaled by weight and distance. -/
def formationForce (ops : FloatOps) (fai : FighterAIState) (f : Fighter)
    (index total : ℚ) : Option Vec3 :=
  (getFormationPosition ops fai index total).map fun formationPosition =>
    let toFormation := formationPosition - f.position
    let distanceToFormation := vlen ops toFormation
    (fai.weights.maintainFormation * distanceToFormation * (1/5)) •
      jsNormalize ops toFormation

/-- FighterAI.applyTargetingForce: returns the force contribution and the
new state tag.  Inside attack range (2) the seek force is suppressed and
the state becomes attacking; otherwise seek toward the animal and become
moving; with no animal nothing changes. -/
def targetingResult (ops : FloatOps) (w : Weights) (f : Fighter)
    (animal : Option AnimalS) : Vec3 × FState :=
  match animal with
  | none => (Vec3.zero, f.state)
  | some a =>
    let toTarget := a.position - f.position
    let distanceToTarget := vlen ops toTarget
    if distanceToTarget ≤ 2 then (Vec3.zero, FState.attacking)
    else (w.attackTarget • jsNormalize ops toTarget, FState.moving)

/-- One other-fighter term of FighterAI.applyAvoidanceForce. -/
def avoidanceContribution (ops : FloatOps) (w : Weights) (f other : Fighter) :
    Vec3 :=
  if other.state = FState.dead then Vec3.zero
  else
    let toOther := f.position - other.position
    let distance := vlen ops toOther
    if distance < 3/2 then
      ((3/2 - distance) / (3/2) * w.avoidDanger) • jsNormalize ops toOther
    else Vec3.zero

/-- FighterAI.applyAvoidanceForce: sum the separation terms over every
other fighter (identity comparison modelled by the roster index). -/
def avoidanceForce (ops : FloatOps) (w : Weights) (fighters : List Fighter)
    (selfIdx : ℕ) (f : Fighter) : Vec3 :=
  fighters.enum.foldl
    (fun acc p =>
      if p.1 = selfIdx then acc else acc + avoidanceContribution ops w f p.2)
    Vec3.zero

/-- FighterAI.applyCommanderInfluence: returns (force contribution, new
weights, new commanderInfluence flag).  When the influence branch is
taken, attackTarget is rewritten from the mouse state and the flag is
cleared; the pull force applies only beyond 70% of the radius. -/
def influenceStep (ops : FloatOps) (w : Weights) (commander : Option CommanderS)
    (animal : Option AnimalS) (mouseDown : Bool) (f : Fighter) :
    Vec3 × Weights × Bool :=
  match commander with
  | none => (Vec3.zero, w, f.commanderInfluence)
  | some c =>
    let toCommander := c.position - f.position
    let distance := vlen ops toCommander
    if f.commanderInfluence = true ∨ distance < 15 then
      let w2 := { w with
        attackTarget := if mouseDown = true ∧ animal.isSome then 6/5 else 4/5 }
      let force :=
        if distance > 15 * (7/10) then
          w2.followCommander • jsNormalize ops toCommander
        else Vec3.zero
      (force, w2, false)
    else (Vec3.zero, w, f.commanderInfluence)

/-- FighterAI.applyFleeingForce's force value: a strong force directly
away from the animal (the caller overwrites the accumulator with it). -/
def fleeForce (ops : FloatOps) (w : Weights) (a : AnimalS) (f : Fighter) :
    Vec3 :=
  (w.fleeWhenInjured * 2) • jsNormalize ops (f.position - a.position)

/-- FighterAI.lerpAngle: shortest-angle interpolation. -/
def lerpAngle (ops : FloatOps) (a b t : ℚ) : ℚ :=
  let d := jsFmod (b - a + ops.pi * 3) (ops.pi * 2) - ops.pi
  a + d * min 1 t

/-- The mutable state threaded through one FighterAI.update call. -/
structure FTickState where
  fighters : List Fighter
  animal : Option AnimalS
  fai : FighterAIState
deriving DecidableEq, Repr

/-- Outcome of the force-accumulation phase for one fighter: the final
accumulator (none when NaN-contaminated by a degenerate formation slot),
the state tag, and the updated weights and influence flag. -/
structure ForcePhase where
  acc : Option Vec3
  state : FState
  weights : Weights
  flag : Bool

/-- Force-accumulation phase of the per-fighter loop body of
FighterAI.update: formation, targeting, avoidance, commander influence,
then the injury override which replaces the whole accumulator with the
flee force (clearing any NaN contamination, as in the source where the
accumulator is overwritten by copy). -/
def forcePhase (ops : FloatOps) (commander : Option CommanderS)
    (mouseDown : Bool) (st : FTickState) (i : ℕ) (f : Fighter) : ForcePhase :=
  let total : ℚ := st.fighters.length
  let acc0 := (formationForce ops st.fai f (i : ℚ) total).map (Vec3.zero + ·)
  let tr := targetingResult ops st.fai.weights f st.animal
  let acc1 := acc0.map (· + tr.1)
  let acc2 := acc1.map (· + avoidanceForce ops st.fai.weights st.fighters i f)
  let infl := influenceStep ops st.fai.weights commander st.animal mouseDown f
  let acc3 := acc2.map (· + infl.1)
  if f.health < f.maxHealth * (1/5) then
    match st.animal with
    | some a => ⟨some (fleeForce ops infl.2.1 a f), FState.fleeing, infl.2.1, infl.2.2⟩
    | none => ⟨acc3, tr.2, infl.2.1, infl.2.2⟩
  else ⟨acc3, tr.2, infl.2.1, infl.2.2⟩

/-- Velocity, position and rotation integration of the per-fighter loop
body (velocity = normalized accumulator scaled by 5 * delta; rotation
only updated above the squared-length threshold 0.001). -/
def movePhase (ops : FloatOps) (delta : ℚ) (f : Fighter) (fp : ForcePhase) :
    Option Fighter :=
  fp.acc.map fun acc =>
    let maxSpeed := 5 * delta
    let velocity := maxSpeed • jsNormalize ops acc
    let position := f.position + velocity
    let rotation :=
      if velocity.normSq > 1/1000 then
        lerpAngle ops f.rotation (ops.atan2 velocity.x velocity.z) (10 * delta)
      else f.rotation
    { f with forceAccumulator := acc, velocity := velocity,
             position := position, rotation := rotation,
             state := fp.state, commanderInfluence := fp.flag }

/-- FighterAI.handleFighterAttacks: when attacking, in range of the
animal and past the 1 second cooldown, deal base damage 1 (times 1.5 if
the commanderInfluence flag is still set) and reset the attack timer. -/
def handleFighterAttacks (ops : FloatOps) (time : ℚ) (f : Fighter)
    (animal : Option AnimalS) : Fighter × Option AnimalS :=
  match animal with
  | none => (f, none)
  | some a =>
    if f.state = FState.attacking then
      let distanceToAnimal := vlen ops (a.position - f.position)
      if distanceToAnimal ≤ 2 ∧ time - f.lastAttackTime > 1 then
        let damageAmount : ℚ := if f.commanderInfluence = true then 1 * (3/2) else 1
        ({ f with lastAttackTime := time },
         some { a with health := a.health - damageAmount })
      else (f, some a)
    else (f, some a)

/-- The per-fighter body of the FighterAI.update loop (dead fighters are
skipped).  The result is none when the final accumulator was
NaN-contaminated. -/
def updateOneFighter (ops : FloatOps) (commander : Option CommanderS)
    (mouseDown : Bool) (time delta : ℚ) (st : FTickState) (i : ℕ) :
    Option FTickState :=
  match st.fighters[i]? with
  | none => some st
  | some f =>
    if f.state = FState.dead then some st
    else
      let fp := forcePhase ops commander mouseDown st i f
      (movePhase ops delta f fp).map fun f1 =>
        let r := handleFighterAttacks ops time f1 st.animal
        { fighters := st.fighters.set i r.1, animal := r.2,
          fai := { st.fai with weights := fp.weights } }

/-- FighterAI.update: only in the battle phase; recompute the formation
frame, then run the loop body over the roster in order. -/
def fighterAIUpdate (ops : FloatOps) (phase : String)
    (commander : Option CommanderS) (mouseDown : Bool) (time delta : ℚ)
    (st : FTickState) : Option FTickState :=
  if phase ≠ "battle" then some st
  else
    let st0 : FTickState := { st with fai := updateFormationCenter ops st.fai commander }
    (List.range st0.fighters.length).foldlM
      (updateOneFighter ops commander mouseDown time delta) st0

/-- The error raised when AnimalAI.getFightersInCone reaches the call
Math.clamp(dotProduct, -1, 1): JavaScript has no Math.clamp, so the call
throws. -/
def clampErr : String := "TypeError: Math.clamp is not a function"

/-- The fighter loop of AnimalAI.getFightersInCone: dead fighters and
fighters beyond the radius are skipped; the first fighter passing the
distance check reaches the Math.clamp call and throws.  The pushes behind
the angle test are unreachable, so a non-throwing run collects nothing. -/
def coneFighterScan (ops : FloatOps) (a : AnimalS) (radius : ℚ) :
    List Fighter → Except String (List (ℕ ⊕ Unit))
  | [] => Except.ok []
  | f :: rest =>
    if f.state = FState.dead then coneFighterScan ops a radius rest
    else
      let toFighter := f.position - a.position
      let distance := vlen ops toFighter
      if distance > radius then coneFighterScan ops a radius rest
      else Except.error clampErr

/-- AnimalAI.getFightersInCone: scan fighters, then the commander.  The
angle argument is only consumed after the Math.clamp call and is
therefore never read.  Results carry roster references (inl index for a
fighter, inr for the commander). -/
def getFightersInCone (ops : FloatOps) (a : AnimalS) (fighters : List Fighter)
    (commander : Option CommanderS) (radius _angle : ℚ) :
    Except String (List (ℕ ⊕ Unit)) := do
  let results ← coneFighterScan ops a radius fighters
  match commander with
  | none => pure results
  | some c =>
    let toCommander := c.position - a.position
    let distance := vlen ops toCommander
    if distance ≤ radius then Except.error clampErr
    else pure results

/-- Read the Target record of a cone reference (fighter index or
commander) for AnimalAI.performAttack. -/
def refTarget (fighters : List Fighter) (commander : Option CommanderS)
    (r : ℕ ⊕ Unit) : Target :=
  match r with
  | Sum.inl i =>
    match fighters[i]? with
    | some f => { health := f.health, state := some f.state }
    | none => { health := 0, state := some FState.dead }
  | Sum.inr _ =>
    match commander with
    | some c => { health := c.health, state := c.state }
    | none => { health := 0, state := some FState.dead }

/-- Write an updated Target record back through a cone reference
(in-place mutation of the referenced entity in the source). -/
def refWriteBack (st : List Fighter × Option CommanderS)
    (p : (ℕ ⊕ Unit) × Target) : List Fighter × Option CommanderS :=
  match p.1 with
  | Sum.inl i =>
    match st.1[i]? with
    | some f =>
      (st.1.set i { f with health := p.2.health,
                           state := (p.2.state).getD f.state }, st.2)
    | none => st
  | Sum.inr _ =>
    (st.1, st.2.map fun c => { c with health := p.2.health, state := p.2.state })

/-- The attack branch of AnimalAI.executeSwipeBehavior: performAttack on
the entities collected by the cone query at 80% attack power, written
back through the references.  Unreachable in a non-throwing run, since
the cone query only ever returns an empty list. -/
def swipeApplyAttack (time : ℚ) (rng : ℕ → ℚ) (a : AnimalS)
    (refs : List (ℕ ⊕ Unit)) (fighters : List Fighter)
    (commander : Option CommanderS) :
    AnimalS × List Fighter × Option CommanderS :=
  let trs := refs.map (refTarget fighters commander)
  let r := performAttack a trs (a.attackPower * (4/5)) time rng
  let w := (refs.zip r.2.2).foldl refWriteBack (fighters, commander)
  (r.2.1, w.1, w.2)

/-- AnimalAI.executeSwipeBehavior (also dispatched for sweep and
tuskSwipe): with no target do nothing; otherwise move slowly toward the
target and query the 90-degree cone of radius attackRange * 1.5 for
victims.  The target's position is the only datum read from the target
reference. -/
def executeSwipeBehavior (ops : FloatOps) (delta time : ℚ) (rng : ℕ → ℚ)
    (a : AnimalS) (targetPos : Option Vec3) (fighters : List Fighter)
    (commander : Option CommanderS) :
    Except String (AnimalS × List Fighter × Option CommanderS) :=
  match targetPos with
  | none => Except.ok (a, fighters, commander)
  | some tp => do
    let direction := jsNormalize ops (tp - a.position)
    let a1 := { a with velocity := (a.moveSpeed * (1/2) * delta) • direction }
    let attackTargets ← getFightersInCone ops a1 fighters commander
      (a1.attackRange * (3/2)) (ops.pi / 2)
    if attackTargets.length > 0 then
      pure (swipeApplyAttack time rng a1 attackTargets fighters commander)
    else
      pure (a1, fighters, commander)

/-- Rational square-root table sufficient for the concrete scenarios in
this file; every value agrees with Math.sqrt at the listed inputs, and
inputs outside the table are never consulted with their value mattering. -/
def demoOps : FloatOps where
  sqrt q := if q = 0 then 0 else if q = 1 then 1 else if q = 4 then 2
            else if q = 81/4 then 9/2 else 0
  cos q := if q = 0 then 1 else 0
  sin _ := 0
  atan2 _ _ := 0
  pi := 3

/-- Baseline gorilla animal record (AnimalAI.createAnimal with the
gorilla profile), positioned for the concrete scenarios. -/
def demoAnimal : AnimalS where
  position := ⟨0, 0, 2⟩
  velocity := Vec3.zero
  rotation := 0
  health := 1000
  maxHealth := 1000
  attackPower := 25
  attackRange := 2
  moveSpeed := 8
  chargeSpeed := 12
  lastAttackTime := 0
  attackCooldown := 2
  recentDamage := 0
  isEnraged := false

/-- Baseline fighter record (BattleSimulator.createFighter) at the origin. -/
def demoFighter : Fighter where
  position := Vec3.zero
  velocity := Vec3.zero
  forceAccumulator := Vec3.zero
  rotation := 0
  health := 50
  maxHealth := 50
  state := FState.idle
  attackPower := 1
  lastAttackTime := 0
  attackCooldown := 1
  commanderInfluence := false
  stunned := false
  stunTime := 0

/-- Baseline commander record (BattleSimulator.createCommander). -/
def demoCommander : CommanderS where
  position := ⟨0, 0, 9/2⟩
  velocity := Vec3.zero
  rotation := 0
  health := 200
  maxHealth := 200
  attackPower := 5
  lastAttackTime := 0
  attackCooldown := 1/2
  attackRange := 2
  state := none

/-- Scenario for claim C9: the rally flag is set at the start of the
tick, the commander stands inside the influence radius, and the fighter
sits exactly on its circle-formation slot within attack range of the
animal. -/
def c9Fighter : Fighter := { demoFighter with commanderInfluence := true }

/-- FighterAI tick state for the C9 scenario. -/
def c9State : FTickState where
  fighters := [c9Fighter]
  animal := some demoAnimal
  fai := { currentFormation := "circle", formationCenter := Vec3.zero,
           formationDirection := ⟨0, 0, -1⟩, weights := initialWeights }

/-- Scenario for claim C1: the animal is down to 3 health and the
commander (attack power 5) is in range with an elapsed cooldown. -/
def c1Game : BattleCore where
  time := 10
  animal := some { demoAnimal with position := ⟨0, 1, 2⟩, health := 3 }
  commander := some { demoCommander with position := ⟨0, 1, 0⟩ }
  commanderDamageDealt := 0

/-- Scenario for claim C8: a fighter at health 9 of maxHealth 50 (under
the 20% flee threshold), 3 units away from the animal. -/
def c8Fighter : Fighter :=
  { demoFighter with position := ⟨0, 0, 3⟩, health := 9, state := FState.moving }

/-- Animal at the origin for the C8 and C7 scenarios. -/
def originAnimal : AnimalS := { demoAnimal with position := Vec3.zero }

/-- FighterAI tick state for the C8 scenario (no commander). -/
def c8State : FTickState where
  fighters := [c8Fighter]
  animal := some originAnimal
  fai := { currentFormation := "circle", formationCenter := Vec3.zero,
           formationDirection := ⟨0, 0, -1⟩, weights := initialWeights }

/-- Scenario for claim C7: one living fighter 1 unit in front of the
animal, well inside the cone radius attackRange * 1.5 = 3. -/
def c7Fighter : Fighter := { demoFighter with position := ⟨0, 0, 1⟩ }

/-- Scenario for claim C6: a roster with one dead fighter while both the
animal and the commander are alive and healthy. -/
def c6DeadFighter : Fighter :=
  { demoFighter with health := 0, state := FState.dead }

/-- FighterAI instance state with the constructor defaults. -/
def demoFAI : FighterAIState where
  currentFormation := "circle"
  formationCenter := Vec3.zero
  formationDirection := ⟨0, 0, -1⟩
  weights := initialWeights

/-- Health/state sanity of one attack target: alive with positive health,
or dead with health exactly 0. -/
def healthOK (t : Target) : Prop :=
  (0 < t.health ∧ t.state ≠ some FState.dead) ∨
  (t.health = 0 ∧ t.state = some FState.dead)

/-- Relation between a target before and after one performAttack call:
health stays nonnegative and sane, dead targets are untouched, and the
dead tag appears exactly when the resulting health is 0. -/
def damageRel (t t' : Target) : Prop :=
  0 ≤ t'.health ∧ healthOK t' ∧
  (t.state = some FState.dead → t' = t) ∧
  (t'.state = some FState.dead ↔ (t.state = some FState.dead ∨ t'.health = 0))

/-- Invariant tying an animal's combat stats to their un-enraged baseline
(ap, ms, cs): while not enraged the stats equal the baseline, while
enraged they carry exactly one application of the x1.3 / x1.2 / x1.2
multipliers. -/
def rageStatsOK (ap ms cs : ℚ) (a : AnimalS) : Prop :=
  (a.isEnraged = false ∧ a.attackPower = ap ∧ a.moveSpeed = ms ∧
    a.chargeSpeed = cs) ∨
  (a.isEnraged = true ∧ a.attackPower = ap * (13/10) ∧
    a.moveSpeed = ms * (6/5) ∧ a.chargeSpeed = cs * (6/5))

instance (t : Target) : Decidable (healthOK t) := by
  unfold healthOK
  infer_instance

instance (t t' : Target) : Decidable (damageRel t t') := by
  unfold damageRel
  infer_instance

/-- Animal that has just absorbed 150 recent damage (above the gorilla's
enrage threshold of 100). -/
def c2RageAnimal : AnimalS := { demoAnimal with recentDamage := 150 }

lemma Vec3.smul_smul (a b : ℚ) (v : Vec3) : a • b • v = (a * b) • v := by
  show (⟨a * (b * v.x), a * (b * v.y), a * (b * v.z)⟩ : Vec3) = _
  simp [HSMul.hSMul, SMul.smul, mul_assoc]

lemma set_getElem?_self {α : Type _} {l : List α} {i : ℕ} {a : α} (b : α)
    (h : l[i]? = some a) : (l.set i b)[i]? = some b := by
  have hi : i < l.length := by
    by_contra hge
    push_neg at hge
    rw [List.getElem?_eq_none hge] at h
    exact Option.noConfusion h
  rw [List.getElem?_eq_getElem (by simpa using hi), List.getElem_set_self]

lemma damageRel_refl (t : Target) (h : healthOK t) : damageRel t t := by
  rcases h with ⟨hpos, hne⟩ | ⟨hz, hd⟩
  · exact ⟨le_of_lt hpos, Or.inl ⟨hpos, hne⟩, fun _ => rfl,
      ⟨fun hdd => absurd hdd hne, fun hc => by
        rcases hc with hc | hc
        · exact hc
        · exact absurd hc (ne_of_gt hpos)⟩⟩
  · exact ⟨le_of_eq hz.symm, Or.inr ⟨hz, hd⟩, fun _ => rfl,
      ⟨fun _ => Or.inl hd, fun _ => hd⟩⟩

/-- C5. The claim says totalCount ≤ 1 is explicitly guarded against
division by zero in the line and arrow row/width math.  In fact
FighterAI.lineFormation divides index by totalFighters - 1 with no guard,
so a roster of exactly one fighter (index 0, total 1) computes 0 / 0 and
the slot position is NaN; the arrow formation is saved only by its
index-0 early return. -/
theorem c5_line_formation_divzero :
    lineFormation demoOps 0 1 Vec3.zero ⟨0, 0, -1⟩ = none ∧
    arrowFormation demoOps 0 1 Vec3.zero ⟨0, 0, -1⟩ = some ⟨0, 0, -3⟩ := by
  with_unfolding_all decide

/-- C6 counterexample. With one placed fighter dead, the animal at full
health and the commander alive at 200 health, checkBattleEnd ends the
battle with a loss (some false); the claim asserts the battle does not
end while the commander is alive. -/
theorem c6_all_dead_ends_battle :
    checkBattleEnd [c6DeadFighter] (some demoAnimal) (some demoCommander)
      = some false := by
  decide

/-- C6 amended. When at least one fighter was placed and all are dead,
checkBattleEnd ends the battle with a loss regardless of the commander's
health; when zero fighters were ever placed, the all-fighters-dead clause
does not fire and the battle continues while both the animal and the
commander are alive. -/
theorem c6_loss_condition_amended
    (fs : List Fighter) (a : AnimalS) (co : Option CommanderS)
    (hne : fs ≠ []) (hdead : ∀ f ∈ fs, f.state = FState.dead) (ha : 0 < a.health)
    (a2 : AnimalS) (c2 : CommanderS) (ha2 : 0 < a2.health) (hc2 : 0 < c2.health) :
    checkBattleEnd fs (some a) co = some false ∧
    checkBattleEnd [] (some a2) (some c2) = none := by
  constructor
  · have hA : animalDefeated (some a) = false := decide_eq_false (not_le.mpr ha)
    simp only [checkBattleEnd, hA, Bool.false_eq_true, if_false]
    rw [if_pos]
    simp only [Bool.or_eq_true, Bool.and_eq_true, decide_eq_true_eq]
    exact Or.inl ⟨List.length_pos.mpr hne, by
      simp only [List.all_eq_true, decide_eq_true_eq]
      exact hdead⟩
  · simp [checkBattleEnd, animalDefeated, commanderDefeated,
      not_le.mpr ha2, not_le.mpr hc2]

/-- C6 witness for the amended loss condition at concrete inputs. -/
theorem c6_loss_condition_amended_witness :
    (([c6DeadFighter] : List Fighter) ≠ [] ∧
      (∀ f ∈ [c6DeadFighter], f.state = FState.dead) ∧
      (0 : ℚ) < demoAnimal.health ∧ (0 : ℚ) < demoAnimal.health ∧
      (0 : ℚ) < demoCommander.health) ∧
    (checkBattleEnd [c6DeadFighter] (some demoAnimal) none = some false ∧
     checkBattleEnd [] (some demoAnimal) (some demoCommander) = none) :=
  ⟨⟨by decide, by decide, by decide, by decide, by decide⟩,
   c6_loss_condition_amended [c6DeadFighter] demoAnimal none (by decide)
     (by decide) (by decide) demoAnimal demoCommander (by decide) (by decide)⟩

/-- C7. Executing the swipe behavior with one living fighter one unit
away (inside the cone radius attackRange * 1.5 = 3) throws
TypeError: Math.clamp is not a function from getFightersInCone, because
JavaScript has no Math.clamp; the exception escapes the behavior engine
(there is no try/catch anywhere in the repository), contradicting the
claim that the cone behaviors complete normally. -/
theorem c7_swipe_crash :
    executeSwipeBehavior demoOps (1/60) 0 (fun _ => 0) originAnimal
      (some ⟨0, 0, 1⟩) [c7Fighter] none = Except.error clampErr := by
  with_unfolding_all rfl

/-- C1 counterexample. BattleSimulator.commanderAttack subtracts the
commander's attackPower from the animal's health with no clamp: from
health 3 one in-range hit of 5 leaves the animal at health -2, so a
unit's health is observed negative, contradicting the claim. -/
theorem c1_negative_health :
    ((commanderAttack demoOps c1Game).animal.map AnimalS.health) = some (-2) ∧
    ((-2 : ℚ) < 0) := by
  with_unfolding_all decide

/-- C10 counterexample. The source tests truthiness of
this.formations[formationName] on a plain object literal, and JavaScript
member access consults the prototype chain: the inherited
Object.prototype member named toString is truthy, so
setFormation("toString") returns true and stores "toString" as the
current formation even though it is none of the four formation kinds -
refuting the claimed equivalence. -/
theorem c10_inherited_name_accepted :
    (setFormation demoFAI "toString").1 = true ∧
    (setFormation demoFAI "toString").2.currentFormation = "toString" ∧
    ¬ ("toString" = "circle" ∨ "toString" = "line" ∨ "toString" = "arrow" ∨
       "toString" = "scatter") := by
  decide

set_option linter.unusedTactic false in
/-- C10 amended. setFormation returns true and stores the name exactly
when this.formations[name] is truthy: one of the four own formation keys
or a member the object literal inherits from Object.prototype; for every
other name it returns false and leaves the current formation unchanged. -/
theorem c10_setFormation_amended (st : FighterAIState) (name : String) :
    ((setFormation st name).1 = true ↔
      (name = "circle" ∨ name = "line" ∨ name = "arrow" ∨ name = "scatter" ∨
       name ∈ objectProtoMembers)) ∧
    (setFormation st name).2 =
      (if name = "circle" ∨ name = "line" ∨ name = "arrow" ∨ name = "scatter" ∨
          name ∈ objectProtoMembers
       then { st with currentFormation := name } else st) := by
  have hlook : ((formationsMap.lookup name).isSome = true) ↔
      (name = "circle" ∨ name = "line" ∨ name = "arrow" ∨ name = "scatter") := by
    by_cases h1 : name = "circle" <;> by_cases h2 : name = "line" <;>
      by_cases h3 : name = "arrow" <;> by_cases h4 : name = "scatter" <;>
      first
      | (simp [formationsMap, List.lookup, h1, h2, h3, h4]; done)
      | (simp [formationsMap, List.lookup, beq_eq_false_iff_ne.mpr h1,
          beq_eq_false_iff_ne.mpr h2, beq_eq_false_iff_ne.mpr h3,
          beq_eq_false_iff_ne.mpr h4, h1, h2, h3, h4]; done)
  have hmem : (objectProtoMembers.contains name = true) ↔
      name ∈ objectProtoMembers := by
    simp
  have hiff : (formationsTruthy name = true) ↔
      (name = "circle" ∨ name = "line" ∨ name = "arrow" ∨ name = "scatter" ∨
       name ∈ objectProtoMembers) := by
    simp only [formationsTruthy, Bool.or_eq_true, hlook, hmem]
    tauto
  by_cases h : name = "circle" ∨ name = "line" ∨ name = "arrow" ∨
      name = "scatter" ∨ name ∈ objectProtoMembers
  · have hs : formationsTruthy name = true := hiff.mpr h
    simp [setFormation, hs, h]
  · have hs : formationsTruthy name = false := by
      cases hh : formationsTruthy name
      · rfl
      · exact absurd (hiff.mp hh) h
    simp [setFormation, hs, h]

/-- C3. A performAttack call whose cooldown has not elapsed is a no-op
returning false with attacker and targets unchanged; consequently a
successful attack at time t1 followed by a second call at time t2 with
t2 - t1 less than the attacker's (updated) cooldown leaves the second
call a no-op, so two calls within the cooldown yield exactly one damage
application. -/
theorem c3_cooldown_no_op
    (a : AnimalS) (ts : List Target) (base t : ℚ) (rng : ℕ → ℚ)
    (h : t - a.lastAttackTime < a.attackCooldown)
    (b : AnimalS) (ts1 : List Target) (base1 t1 t2 : ℚ) (rng1 rng2 : ℕ → ℚ)
    (h1 : ¬ (t1 - b.lastAttackTime < b.attackCooldown))
    (h2 : t2 - t1 < (performAttack b ts1 base1 t1 rng1).2.1.attackCooldown) :
    performAttack a ts base t rng = (false, a, ts) ∧
    performAttack (performAttack b ts1 base1 t1 rng1).2.1
        (performAttack b ts1 base1 t1 rng1).2.2 base1 t2 rng2
      = (false, (performAttack b ts1 base1 t1 rng1).2.1,
         (performAttack b ts1 base1 t1 rng1).2.2) := by
  refine ⟨by simp [performAttack, if_pos h], ?_⟩
  set P := performAttack b ts1 base1 t1 rng1 with hP
  have hA : P.2.1.lastAttackTime = t1 := by
    rw [hP]
    simp [performAttack, if_neg h1]
  have hcond : t2 - P.2.1.lastAttackTime < P.2.1.attackCooldown := by
    rw [hA]
    exact h2
  show performAttack P.2.1 P.2.2 base1 t2 rng2 = (false, P.2.1, P.2.2)
  simp only [performAttack, if_pos hcond]

/-- C3 witness: the gorilla profile (cooldown 2) attacks successfully at
time 5, and a second call at time 5.5 declines. -/
theorem c3_cooldown_no_op_witness :
    (((1 : ℚ) - demoAnimal.lastAttackTime < demoAnimal.attackCooldown) ∧
     ¬ ((5 : ℚ) - demoAnimal.lastAttackTime < demoAnimal.attackCooldown) ∧
     ((11/2 : ℚ) - 5 <
       (performAttack demoAnimal [⟨50, some FState.idle⟩] 25 5
         (fun _ => 0)).2.1.attackCooldown)) ∧
    (performAttack demoAnimal [⟨50, some FState.idle⟩] 25 1 (fun _ => 0)
        = (false, demoAnimal, [⟨50, some FState.idle⟩]) ∧
     performAttack
        (performAttack demoAnimal [⟨50, some FState.idle⟩] 25 5 (fun _ => 0)).2.1
        (performAttack demoAnimal [⟨50, some FState.idle⟩] 25 5 (fun _ => 0)).2.2
        25 (11/2) (fun _ => 0)
      = (false,
         (performAttack demoAnimal [⟨50, some FState.idle⟩] 25 5 (fun _ => 0)).2.1,
         (performAttack demoAnimal [⟨50, some FState.idle⟩] 25 5 (fun _ => 0)).2.2)) :=
  ⟨⟨by with_unfolding_all decide, by with_unfolding_all decide,
    by with_unfolding_all decide⟩,
   c3_cooldown_no_op demoAnimal [⟨50, some FState.idle⟩] 25 1 (fun _ => 0)
     (by with_unfolding_all decide) demoAnimal [⟨50, some FState.idle⟩] 25 5 (11/2)
     (fun _ => 0) (fun _ => 0) (by with_unfolding_all decide)
     (by with_unfolding_all decide)⟩

/-- C4. A successful performAttack call advances lastAttackTime to the
call time once for the whole call, and the resulting attacker state is
the same whatever the target list (and random stream): an area attack
costs exactly one cooldown cycle, not one per target. -/
theorem c4_area_single_cooldown
    (a : AnimalS) (ts : List Target) (base t : ℚ) (rng rng2 : ℕ → ℚ)
    (h : ¬ (t - a.lastAttackTime < a.attackCooldown)) :
    (performAttack a ts base t rng).2.1.lastAttackTime = t ∧
    (performAttack a ts base t rng).2.1 = (performAttack a [] base t rng2).2.1 := by
  simp [performAttack, if_neg h]

/-- C4 witness: an area hit on two live targets charges the same single
cooldown as an empty hit. -/
theorem c4_area_single_cooldown_witness :
    (¬ ((5 : ℚ) - demoAnimal.lastAttackTime < demoAnimal.attackCooldown)) ∧
    ((performAttack demoAnimal
        [⟨50, some FState.idle⟩, ⟨200, none⟩] 25 5 (fun _ => 0)).2.1.lastAttackTime = 5 ∧
     (performAttack demoAnimal
        [⟨50, some FState.idle⟩, ⟨200, none⟩] 25 5 (fun _ => 0)).2.1
       = (performAttack demoAnimal [] 25 5 (fun _ => 1/2)).2.1) :=
  ⟨by with_unfolding_all decide,
   c4_area_single_cooldown demoAnimal [⟨50, some FState.idle⟩, ⟨200, none⟩]
     25 5 (fun _ => 0) (fun _ => 1/2) (by with_unfolding_all decide)⟩

lemma updateRageState_rageStatsOK (ap ms cs : ℚ) (a : AnimalS) (d : ℚ)
    (h : rageStatsOK ap ms cs a) : rageStatsOK ap ms cs (updateRageState a d) := by
  have h13 : (13/10 : ℚ) ≠ 0 := by norm_num
  have h65 : (6/5 : ℚ) ≠ 0 := by norm_num
  simp only [updateRageState]
  rcases h with ⟨he, hap, hms, hcs⟩ | ⟨he, hap, hms, hcs⟩
  · rw [he]
    by_cases hc : a.recentDamage * (1 - d * (1/2)) > a.maxHealth * (1/10)
    · rw [if_pos ⟨rfl, hc⟩]
      exact Or.inr ⟨rfl, by rw [hap], by rw [hms], by rw [hcs]⟩
    · rw [if_neg (fun hx => hc hx.2), if_neg (by simp)]
      exact Or.inl ⟨rfl, hap, hms, hcs⟩
  · rw [he]
    rw [if_neg (by simp)]
    by_cases hc : a.recentDamage * (1 - d * (1/2)) < a.maxHealth * (1/10) * (1/2)
    · rw [if_pos ⟨rfl, hc⟩]
      refine Or.inl ⟨rfl, ?_, ?_, ?_⟩
      · rw [hap]
        exact mul_div_cancel_right₀ ap h13
      · rw [hms]
        exact mul_div_cancel_right₀ ms h65
      · rw [hcs]
        exact mul_div_cancel_right₀ cs h65
    · rw [if_neg (fun hx => hc hx.2)]
      exact Or.inr ⟨rfl, hap, hms, hcs⟩

lemma foldl_updateRageState_rageStatsOK (ap ms cs : ℚ) (ds : List ℚ) :
    ∀ a : AnimalS, rageStatsOK ap ms cs a →
      rageStatsOK ap ms cs (ds.foldl updateRageState a) := by
  induction ds with
  | nil => exact fun a h => h
  | cons d ds ih =>
    intro a h
    exact ih _ (updateRageState_rageStatsOK ap ms cs a d h)

/-- C2. Starting from an un-enraged animal, after any sequence of
updateRageState calls (any number of enrage / de-enrage cycles) that ends
with the animal not enraged, attackPower, moveSpeed and chargeSpeed equal
their pre-enrage values exactly: the multipliers are applied exactly once
on entering the enraged state and divided back out exactly once on
leaving it. -/
theorem c2_enrage_symmetry (a : AnimalS) (ds : List ℚ)
    (h0 : a.isEnraged = false)
    (h1 : (ds.foldl updateRageState a).isEnraged = false) :
    (ds.foldl updateRageState a).attackPower = a.attackPower ∧
    (ds.foldl updateRageState a).moveSpeed = a.moveSpeed ∧
    (ds.foldl updateRageState a).chargeSpeed = a.chargeSpeed := by
  have h := foldl_updateRageState_rageStatsOK a.attackPower a.moveSpeed
    a.chargeSpeed ds a (Or.inl ⟨h0, rfl, rfl, rfl⟩)
  rcases h with ⟨_, hap, hms, hcs⟩ | ⟨he, _, _, _⟩
  · exact ⟨hap, hms, hcs⟩
  · rw [h1] at he
    exact absurd he (by simp)

/-- C2 witness: the gorilla enrages on a delta-0 tick with 150 recent
damage and de-enrages on a delta-2 tick, after which its stats equal the
originals. -/
theorem c2_enrage_symmetry_witness :
    (c2RageAnimal.isEnraged = false ∧
     (List.foldl updateRageState c2RageAnimal [0, 2]).isEnraged = false) ∧
    ((List.foldl updateRageState c2RageAnimal [0, 2]).attackPower
        = c2RageAnimal.attackPower ∧
     (List.foldl updateRageState c2RageAnimal [0, 2]).moveSpeed
        = c2RageAnimal.moveSpeed ∧
     (List.foldl updateRageState c2RageAnimal [0, 2]).chargeSpeed
        = c2RageAnimal.chargeSpeed) :=
  ⟨⟨by with_unfolding_all decide, by with_unfolding_all decide⟩,
   c2_enrage_symmetry c2RageAnimal [0, 2] (by with_unfolding_all decide)
     (by with_unfolding_all decide)⟩

lemma applyDamage_damageRel (dmg : ℤ) (t : Target)
    (hlive : t.state ≠ some FState.dead) :
    damageRel t (applyDamage dmg t) := by
  unfold applyDamage damageRel
  by_cases hle : t.health - (dmg : ℚ) ≤ 0
  · rw [if_pos hle]
    refine ⟨le_refl 0, Or.inr ⟨rfl, rfl⟩, fun hdd => absurd hdd hlive, ?_⟩
    simp
  · rw [if_neg hle]
    push_neg at hle
    refine ⟨le_of_lt hle, Or.inl ⟨hle, hlive⟩, fun hdd => absurd hdd hlive, ?_⟩
    constructor
    · intro hdd
      exact absurd hdd hlive
    · intro hc
      rcases hc with hc | hc
      · exact absurd hc hlive
      · exact absurd hc (ne_of_gt hle)

lemma hitTargets_damageRel (base : ℚ) (rng : ℕ → ℚ) :
    ∀ (k : ℕ) (ts : List Target), (∀ t ∈ ts, healthOK t) →
      List.Forall₂ damageRel ts (hitTargets base rng k ts) := by
  intro k ts
  induction ts generalizing k with
  | nil =>
    intro _
    simp [hitTargets]
  | cons t ts ih =>
    intro h
    by_cases hd : t.state = some FState.dead
    · simp only [hitTargets, if_pos hd]
      exact List.Forall₂.cons
        (damageRel_refl t (h t (List.mem_cons_self t ts)))
        (ih k fun u hu => h u (List.mem_cons_of_mem t hu))
    · simp only [hitTargets, if_neg hd]
      exact List.Forall₂.cons
        (applyDamage_damageRel _ t hd)
        (ih (k + 1) fun u hu => h u (List.mem_cons_of_mem t hu))

/-- C1 amended. Targets of AnimalAI.performAttack (fighters and the
commander) are never observed with negative health: each output target
has health at least 0, remains health-sane, already-dead targets pass
through untouched (dead is irreversible on this path), and a target
carries the dead tag afterwards exactly when it was already dead or its
clamped health is 0.  (The animal's own health, reduced without a clamp
by commanderAttack and the fighter attack path, is the exception
exhibited by the counterexample.) -/
theorem c1_health_clamp_amended (a : AnimalS) (ts : List Target)
    (base time : ℚ) (rng : ℕ → ℚ) (h : ∀ t ∈ ts, healthOK t) :
    List.Forall₂ damageRel ts (performAttack a ts base time rng).2.2 := by
  by_cases hcd : time - a.lastAttackTime < a.attackCooldown
  · simp only [performAttack, if_pos hcd]
    exact List.forall₂_same.mpr fun t ht => damageRel_refl t (h t ht)
  · simp only [performAttack, if_neg hcd]
    exact hitTargets_damageRel base rng 0 ts h

/-- C1 witness for the amended clamp property: one live and one dead
target, attacked by the gorilla at time 5. -/
theorem c1_health_clamp_witness :
    (∀ t ∈ ([⟨50, some FState.idle⟩, ⟨0, some FState.dead⟩] : List Target),
      healthOK t) ∧
    List.Forall₂ damageRel [⟨50, some FState.idle⟩, ⟨0, some FState.dead⟩]
      (performAttack demoAnimal [⟨50, some FState.idle⟩, ⟨0, some FState.dead⟩]
        30 5 (fun _ => 1/2)).2.2 :=
  ⟨by with_unfolding_all decide,
   c1_health_clamp_amended demoAnimal
     [⟨50, some FState.idle⟩, ⟨0, some FState.dead⟩] 30 5 (fun _ => 1/2)
     (by with_unfolding_all decide)⟩

lemma influenceStep_fwi (ops : FloatOps) (w : Weights)
    (commander : Option CommanderS) (animal : Option AnimalS)
    (mouseDown : Bool) (f : Fighter) :
    (influenceStep ops w commander animal mouseDown f).2.1.fleeWhenInjured
      = w.fleeWhenInjured := by
  cases commander with
  | none => rfl
  | some c =>
    simp only [influenceStep]
    by_cases h : f.commanderInfluence = true ∨ vlen ops (c.position - f.position) < 15
    · rw [if_pos h]
    · rw [if_neg h]

lemma influenceStep_flag_cleared (ops : FloatOps) (w : Weights) (c : CommanderS)
    (animal : Option AnimalS) (mouseDown : Bool) (f : Fighter)
    (h : f.commanderInfluence = true) :
    (influenceStep ops w (some c) animal mouseDown f).2.2 = false := by
  simp only [influenceStep]
  rw [if_pos (Or.inl h)]

lemma forcePhase_flee (ops : FloatOps) (commander : Option CommanderS)
    (mouseDown : Bool) (st : FTickState) (i : ℕ) (f : Fighter) (a : AnimalS)
    (ha : st.animal = some a) (hhp : f.health < f.maxHealth * (1/5)) :
    forcePhase ops commander mouseDown st i f =
      ⟨some (fleeForce ops
          (influenceStep ops st.fai.weights commander (some a) mouseDown f).2.1 a f),
        FState.fleeing,
        (influenceStep ops st.fai.weights commander (some a) mouseDown f).2.1,
        (influenceStep ops st.fai.weights commander (some a) mouseDown f).2.2⟩ := by
  simp only [forcePhase, ha]
  rw [if_pos hhp]

/-- C8. A fighter under 20% of maxHealth at the start of its per-tick
update (with the animal present) ends the update in the fleeing state,
and its final force accumulator is a positive multiple of the vector from
the animal to the fighter - a force pointing directly away from the
animal, whatever formation, targeting, separation and commander-influence
forces were accumulated earlier in the tick. -/
theorem c8_flee_override
    (ops : FloatOps) (commander : Option CommanderS) (mouseDown : Bool)
    (time delta : ℚ) (st : FTickState) (i : ℕ) (f : Fighter) (a : AnimalS)
    (hf : st.fighters[i]? = some f)
    (hnd : ¬ f.state = FState.dead)
    (hhp : f.health < f.maxHealth * (1/5))
    (ha : st.animal = some a)
    (hw : 0 < st.fai.weights.fleeWhenInjured)
    (hs : 0 ≤ ops.sqrt (Vec3.normSq (f.position - a.position))) :
    ∃ f1, (updateOneFighter ops commander mouseDown time delta st i).bind
        (fun s => s.fighters[i]?) = some f1 ∧
      f1.state = FState.fleeing ∧
      ∃ c : ℚ, 0 < c ∧ f1.forceAccumulator = c • (f.position - a.position) := by
  simp only [updateOneFighter, hf]
  rw [if_neg hnd, forcePhase_flee ops commander mouseDown st i f a ha hhp, ha]
  simp only [movePhase, Option.map_some', Option.some_bind]
  refine ⟨_, set_getElem?_self _ hf, rfl, ?_⟩
  · refine ⟨(influenceStep ops st.fai.weights commander (some a) mouseDown
        f).2.1.fleeWhenInjured * 2 *
        (1 / (if ops.sqrt (Vec3.normSq (f.position - a.position)) = 0 then 1
              else ops.sqrt (Vec3.normSq (f.position - a.position)))), ?_, ?_⟩
    · rw [influenceStep_fwi]
      by_cases hz : ops.sqrt (Vec3.normSq (f.position - a.position)) = 0
      · rw [if_pos hz]
        nlinarith [hw]
      · rw [if_neg hz]
        have hpos : 0 < ops.sqrt (Vec3.normSq (f.position - a.position)) :=
          lt_of_le_of_ne hs (Ne.symm hz)
        have := one_div_pos.mpr hpos
        nlinarith [hw, this]
    · show fleeForce ops
        (influenceStep ops st.fai.weights commander (some a) mouseDown f).2.1 a f
          = _
      unfold fleeForce jsNormalize vlen
      rw [Vec3.smul_smul]

set_option maxRecDepth 8192 in
/-- C8 witness: a fighter at health 9 of 50 beside the animal flees. -/
theorem c8_flee_override_witness :
    (c8State.fighters[0]? = some c8Fighter ∧
     ¬ c8Fighter.state = FState.dead ∧
     c8Fighter.health < c8Fighter.maxHealth * (1/5) ∧
     c8State.animal = some originAnimal ∧
     (0 : ℚ) < c8State.fai.weights.fleeWhenInjured ∧
     (0 : ℚ) ≤ demoOps.sqrt
        (Vec3.normSq (c8Fighter.position - originAnimal.position))) ∧
    (∃ f1, (updateOneFighter demoOps none false 5 (1/100) c8State 0).bind
        (fun s => s.fighters[0]?) = some f1 ∧
      f1.state = FState.fleeing ∧
      ∃ c : ℚ, 0 < c ∧ f1.forceAccumulator
          = c • (c8Fighter.position - originAnimal.position)) :=
  ⟨⟨by with_unfolding_all decide, by with_unfolding_all decide,
    by with_unfolding_all decide, by with_unfolding_all decide,
    by with_unfolding_all decide, by with_unfolding_all decide⟩,
   c8_flee_override demoOps none false 5 (1/100) c8State 0 c8Fighter originAnimal
     (by with_unfolding_all decide) (by with_unfolding_all decide)
     (by with_unfolding_all decide) (by with_unfolding_all decide)
     (by with_unfolding_all decide) (by with_unfolding_all decide)⟩

lemma handleFighterAttacks_no_bonus (ops : FloatOps) (time : ℚ) (f : Fighter)
    (a : AnimalS) (hfl : f.commanderInfluence = false) :
    (handleFighterAttacks ops time f (some a)).1.commanderInfluence = false ∧
    ((handleFighterAttacks ops time f (some a)).2 = some a ∨
     (handleFighterAttacks ops time f (some a)).2
        = some { a with health := a.health - 1 }) := by
  simp only [handleFighterAttacks]
  by_cases hs : f.state = FState.attacking
  · rw [if_pos hs]
    by_cases hcond : vlen ops (a.position - f.position) ≤ 2 ∧
        time - f.lastAttackTime > 1
    · rw [if_pos hcond]
      refine ⟨hfl, Or.inr ?_⟩
      simp [hfl]
    · rw [if_neg hcond]
      exact ⟨hfl, Or.inl rfl⟩
  · rw [if_neg hs]
    exact ⟨hfl, Or.inl rfl⟩

lemma set_handle_result (ops : FloatOps) (time : ℚ) (st : FTickState) (i : ℕ)
    (f : Fighter) (hf : st.fighters[i]? = some f) (a : AnimalS) (f1 : Fighter)
    (hfl : f1.commanderInfluence = false) (W : Weights) :
    ∃ st1, (some { fighters := st.fighters.set i
                     (handleFighterAttacks ops time f1 (some a)).1,
                   animal := (handleFighterAttacks ops time f1 (some a)).2,
                   fai := { st.fai with weights := W } } : Option FTickState)
        = some st1 ∧
      (st1.fighters[i]?).map Fighter.commanderInfluence = some false ∧
      (st1.animal.map AnimalS.health = some a.health ∨
       st1.animal.map AnimalS.health = some (a.health - 1)) := by
  obtain ⟨h1, h2⟩ := handleFighterAttacks_no_bonus ops time f1 a hfl
  refine ⟨_, rfl, ?_, ?_⟩
  · show ((st.fighters.set i
        (handleFighterAttacks ops time f1 (some a)).1)[i]?).map
          Fighter.commanderInfluence = some false
    rw [set_getElem?_self _ hf, Option.map_some', h1]
  · show ((handleFighterAttacks ops time f1 (some a)).2).map AnimalS.health
          = some a.health ∨
        ((handleFighterAttacks ops time f1 (some a)).2).map AnimalS.health
          = some (a.health - 1)
    rcases h2 with h2 | h2
    · left
      rw [h2, Option.map_some']
    · right
      rw [h2, Option.map_some']

/-- C9 amended. When the commanderInfluence flag is set at the start of a
fighter's per-tick update and the commander is present, the
commander-influence step consumes and clears the flag before the attack
step runs, so the fighter ends the tick with the flag false and any
same-tick attack deals the base damage 1 with no 1.5x bonus (the animal
loses either 0 or exactly 1 health from this fighter). -/
theorem c9_influence_amended
    (ops : FloatOps) (c : CommanderS) (mouseDown : Bool) (time delta : ℚ)
    (st : FTickState) (i : ℕ) (f : Fighter) (a : AnimalS) (fo : Vec3)
    (hf : st.fighters[i]? = some f)
    (hnd : ¬ f.state = FState.dead)
    (hflag : f.commanderInfluence = true)
    (ha : st.animal = some a)
    (hslot : formationForce ops st.fai f (i : ℚ) (st.fighters.length : ℚ)
        = some fo) :
    ∃ st1, updateOneFighter ops (some c) mouseDown time delta st i = some st1 ∧
      (st1.fighters[i]?).map Fighter.commanderInfluence = some false ∧
      (st1.animal.map AnimalS.health = some a.health ∨
       st1.animal.map AnimalS.health = some (a.health - 1)) := by
  have hacc : ∃ A s0, forcePhase ops (some c) mouseDown st i f =
      ⟨some A, s0,
       (influenceStep ops st.fai.weights (some c) (some a) mouseDown f).2.1,
       (influenceStep ops st.fai.weights (some c) (some a) mouseDown f).2.2⟩ := by
    by_cases hhp : f.health < f.maxHealth * (1/5)
    · exact ⟨_, _, forcePhase_flee ops (some c) mouseDown st i f a ha hhp⟩
    · refine ⟨Vec3.zero + fo
          + (targetingResult ops st.fai.weights f (some a)).1
          + avoidanceForce ops st.fai.weights st.fighters i f
          + (influenceStep ops st.fai.weights (some c) (some a) mouseDown f).1,
        (targetingResult ops st.fai.weights f (some a)).2, ?_⟩
      simp only [forcePhase, ha, hslot, Option.map_some']
      rw [if_neg hhp]
  obtain ⟨A, s0, hfp⟩ := hacc
  have hflagF : (influenceStep ops st.fai.weights (some c) (some a) mouseDown
      f).2.2 = false :=
    influenceStep_flag_cleared ops st.fai.weights c (some a) mouseDown f hflag
  simp only [updateOneFighter, hf, ha]
  rw [if_neg hnd, hfp]
  simp only [movePhase, Option.map_some']
  apply set_handle_result ops time st i f hf a
  exact hflagF

set_option maxRecDepth 8192 in
/-- C9 witness for the amended property at the concrete rallied-fighter
scenario. -/
theorem c9_influence_amended_witness :
    (c9State.fighters[0]? = some c9Fighter ∧
     ¬ c9Fighter.state = FState.dead ∧
     c9Fighter.commanderInfluence = true ∧
     c9State.animal = some demoAnimal ∧
     formationForce demoOps c9State.fai c9Fighter ((0 : ℕ) : ℚ)
        ((c9State.fighters.length : ℕ) : ℚ) = some ⟨0, 0, 0⟩) ∧
    (∃ st1, updateOneFighter demoOps (some demoCommander) false 5 (1/100)
        c9State 0 = some st1 ∧
      (st1.fighters[0]?).map Fighter.commanderInfluence = some false ∧
      (st1.animal.map AnimalS.health = some demoAnimal.health ∨
       st1.animal.map AnimalS.health = some (demoAnimal.health - 1))) :=
  ⟨⟨by with_unfolding_all decide, by with_unfolding_all decide,
    by with_unfolding_all decide, by with_unfolding_all decide,
    by with_unfolding_all decide⟩,
   c9_influence_amended demoOps demoCommander false 5 (1/100) c9State 0
     c9Fighter demoAnimal ⟨0, 0, 0⟩ (by with_unfolding_all decide)
     (by with_unfolding_all decide) (by with_unfolding_all decide)
     (by with_unfolding_all decide) (by with_unfolding_all decide)⟩

set_option maxRecDepth 8192 in
/-- C9 counterexample. A full FighterAI.update tick on a rallied fighter
(flag set at tick start, commander present, fighter in range, cooldown
elapsed) deals damage 1 to the animal - health drops 1000 to 999, not to
998.5 as the claimed 1.5x commander-influence bonus would require -
because applyCommanderInfluence already cleared the flag earlier in the
same tick. -/
theorem c9_no_influence_bonus :
    ((fighterAIUpdate demoOps "battle" (some demoCommander) false 5 (1/100)
        c9State).map
      fun s => (s.animal.map AnimalS.health,
                s.fighters.map Fighter.commanderInfluence))
      = some (some 999, [false]) ∧
    ¬ ((fighterAIUpdate demoOps "battle" (some demoCommander) false 5 (1/100)
        c9State).map (fun s => s.animal.map AnimalS.health)
      = some (some (1000 - 1 * (3/2)))) := by
  with_unfolding_all decide

end MVA
